import Mathlib

/-!
# Verification of the AI Agora debate orchestrator

Shallow embedding of the debate-orchestration core of the AI Agora backend
(the SSE `/api/chat` handler: topic classification, language resolution,
round-aware prompt building, the per-round barrier, moderator synthesis)
together with proofs of the specified properties.

Modelling conventions:
* JS strings are Lean `String`s; `String.prototype.includes` is `strIncludes`,
  `String.prototype.toLowerCase` is `lowerStr` (ASCII plus the Turkish letters
  occurring in the keyword lists), `Array.prototype.join` is `joinSep`.
* Provider streams are summarised by an `Outcome`: the list of text fragments
  a task yielded before settling, whether it settled by throwing, and the
  error message in that case.  Wall-clock data (`startedAt`) is omitted.
* The real system interleaves `chunk` events of different providers
  nondeterministically; the model serialises the tasks of a round in task
  order.  All properties proved below concern only event membership and the
  settlement phase, whose order (map insertion order) is deterministic.
-/

namespace Agora

/-! ## String machinery -/

/-- Prefix test on character lists. -/
def startsWithL : List Char → List Char → Bool
  | [], _ => true
  | _ :: _, [] => false
  | a :: as, b :: bs => a == b && startsWithL as bs

/-- Substring occurrence test on character lists. -/
def containsAt : List Char → List Char → Bool
  | needle, [] => startsWithL needle []
  | needle, h :: t => startsWithL needle (h :: t) || containsAt needle t

/-- JS `hay.includes(sub)`. -/
def strIncludes (hay sub : String) : Bool :=
  containsAt sub.data hay.data

/-- Uppercase-to-lowercase table: ASCII `A`–`Z` plus the Turkish uppercase
letters occurring in this code base. -/
def lowerPairs : List (Char × Char) :=
  [('A', 'a'), ('B', 'b'), ('C', 'c'), ('D', 'd'), ('E', 'e'), ('F', 'f'),
   ('G', 'g'), ('H', 'h'), ('I', 'i'), ('J', 'j'), ('K', 'k'), ('L', 'l'),
   ('M', 'm'), ('N', 'n'), ('O', 'o'), ('P', 'p'), ('Q', 'q'), ('R', 'r'),
   ('S', 's'), ('T', 't'), ('U', 'u'), ('V', 'v'), ('W', 'w'), ('X', 'x'),
   ('Y', 'y'), ('Z', 'z'),
   ('Ç', 'ç'), ('Ğ', 'ğ'), ('İ', 'i'), ('Ö', 'ö'), ('Ş', 'ş'), ('Ü', 'ü')]

/-- Character lowercasing as used by JS `toLowerCase` on this alphabet. -/
def lowerChar (c : Char) : Char :=
  match lowerPairs.find? (fun p => p.1 == c) with
  | some p => p.2
  | none => c

/-- JS `s.toLowerCase()`. -/
def lowerStr (s : String) : String :=
  ⟨s.data.map lowerChar⟩

/-- JS `parts.join(sep)`. -/
def joinSep (sep : String) : List String → String
  | [] => ""
  | [x] => x
  | x :: y :: t => x ++ sep ++ joinSep sep (y :: t)

/-- The lowercase letters `lowerChar` can produce. -/
def lowerOutputs : List Char :=
  ['a', 'b', 'c', 'd', 'e', 'f', 'g', 'h', 'i', 'j', 'k', 'l', 'm',
   'n', 'o', 'p', 'q', 'r', 's', 't', 'u', 'v', 'w', 'x', 'y', 'z',
   'ç', 'ğ', 'ö', 'ş', 'ü']

theorem lowerPairs_snd_mem : ∀ p ∈ lowerPairs, p.2 ∈ lowerOutputs := by
  decide

theorem lowerChar_cases (c : Char) :
    lowerChar c = c ∨ lowerChar c ∈ lowerOutputs := by
  unfold lowerChar
  cases h : lowerPairs.find? (fun p => p.1 == c) with
  | none => left; rfl
  | some p =>
      right
      exact lowerPairs_snd_mem p (List.mem_of_find?_eq_some h)

theorem lowerChar_fix {d : Char} (hd : d ∈ lowerOutputs) :
    lowerChar d = d := by
  fin_cases hd <;> decide

theorem lowerChar_idem (c : Char) :
    lowerChar (lowerChar c) = lowerChar c := by
  rcases lowerChar_cases c with h | h
  · rw [h, h]
  · exact lowerChar_fix h

theorem lowerStr_idem (s : String) :
    lowerStr (lowerStr s) = lowerStr s := by
  unfold lowerStr
  refine congrArg String.mk ?_
  rw [List.map_map]
  exact List.map_congr_left fun c _ => lowerChar_idem c

theorem startsWithL_append_self (xs ys : List Char) :
    startsWithL xs (xs ++ ys) = true := by
  induction xs with
  | nil => rfl
  | cons a as ih => simp [startsWithL, ih]

theorem containsAt_of_starts (x h : List Char) (hs : startsWithL x h = true) :
    containsAt x h = true := by
  cases h <;> simp [containsAt, hs]

theorem containsAt_cons (x : List Char) (c : Char) (t : List Char)
    (h : containsAt x t = true) : containsAt x (c :: t) = true := by
  simp [containsAt, h]

theorem containsAt_sandwich (x pre post : List Char) :
    containsAt x (pre ++ (x ++ post)) = true := by
  induction pre with
  | nil => exact containsAt_of_starts _ _ (startsWithL_append_self x post)
  | cons c p ih => exact containsAt_cons _ _ _ ih

/-- Any explicit decomposition of the haystack around the needle certifies
`strIncludes`. -/
theorem strIncludes_of_decomp (hay x : String) (A B : List Char)
    (h : hay.data = A ++ x.data ++ B) : strIncludes hay x = true := by
  unfold strIncludes
  rw [h, List.append_assoc]
  exact containsAt_sandwich x.data A B

/-- Every element of a joined list occurs inside the join. -/
theorem joinSep_decomp (sep : String) (l : List String) (x : String)
    (hx : x ∈ l) :
    ∃ A B : List Char, (joinSep sep l).data = A ++ x.data ++ B := by
  induction l with
  | nil => cases hx
  | cons y t ih =>
      cases t with
      | nil =>
          rcases List.mem_singleton.mp hx with rfl
          exact ⟨[], [], by simp [joinSep]⟩
      | cons z t' =>
          rcases List.mem_cons.mp hx with rfl | hx'
          · refine ⟨[], sep.data ++ (joinSep sep (z :: t')).data, ?_⟩
            simp [joinSep, List.append_assoc]
          · rcases ih hx' with ⟨A, B, hAB⟩
            refine ⟨y.data ++ sep.data ++ A, B, ?_⟩
            simp [joinSep, hAB, List.append_assoc]

/-! ## Topic classifier (`detectSeriousTopic`) -/

/-- The fixed multilingual keyword list of `detectSeriousTopic`. -/
def seriousKeywords : List String :=
  ["hasta", "hastalık", "ağrı", "kanser", "kalp", "depresyon", "ilaç",
   "doktor", "acil",
   "sick", "disease", "pain", "cancer", "heart", "depression", "medicine",
   "doctor", "emergency",
   "boşanma", "dava", "mahkeme", "iflas", "borç", "avukat", "hukuki",
   "divorce", "lawsuit", "court", "bankruptcy", "debt", "lawyer", "legal",
   "intihar", "şiddet", "yardım edin", "kriz", "ölüm", "vefat",
   "suicide", "violence", "help me", "crisis", "death", "died"]

/-- `detectSeriousTopic(prompt)`: lowercase the prompt, then test whether any
keyword occurs as a substring. -/
def detectSeriousTopic (prompt : String) : Bool :=
  seriousKeywords.any fun keyword => strIncludes (lowerStr prompt) keyword

/-! ## Language resolver (`detectLanguage` and the `language ||` fallback) -/

def trMarkers : List String :=
  ["ve", "bir", "bu", "da", "de", "ile", "için", "var", "olan", "çok",
   "daha", "en", "şey", "gibi", "sonra"]

def enMarkers : List String :=
  ["the", "and", "is", "a", "to", "in", "it", "you", "that", "he", "was",
   "for", "on", "are", "as", "with"]

def esMarkers : List String :=
  ["el", "la", "de", "que", "y", "a", "en", "un", "es", "se", "no", "te",
   "lo", "le", "da"]

def frMarkers : List String :=
  ["le", "de", "et", "à", "un", "il", "être", "en", "avoir", "que", "pour",
   "dans", "ce", "son"]

def deMarkers : List String :=
  ["der", "die", "und", "in", "den", "von", "zu", "das", "mit", "sich",
   "des", "auf", "für", "ist", "im"]

def arMarkers : List String :=
  ["في", "من", "إلى", "على", "أن", "هذا", "هذه", "كان", "التي", "الذي",
   "ما", "لا", "أو", "كل"]

/-- `markers.filter(w => hay.includes(w)).length`. -/
def scoreCount (hay : String) (markers : List String) : Nat :=
  (markers.filter fun w => strIncludes hay w).length

/-- The key order of the `scores` object literal. -/
def langKeys : List String := ["tr", "en", "es", "fr", "de", "ar"]

/-- `scores[k]` for a given input text.  The Arabic list is matched against
the raw text (the source keeps it un-lowercased), all others against the
lowercased text. -/
def scoresFor (text : String) (k : String) : Nat :=
  if k = "tr" then scoreCount (lowerStr text) trMarkers
  else if k = "en" then scoreCount (lowerStr text) enMarkers
  else if k = "es" then scoreCount (lowerStr text) esMarkers
  else if k = "fr" then scoreCount (lowerStr text) frMarkers
  else if k = "de" then scoreCount (lowerStr text) deMarkers
  else if k = "ar" then scoreCount text arMarkers
  else 0

/-- JS `keys.reduce((a, b) => (score(a) > score(b) ? a : b))`: a fold over the
tail of the key list starting from its head. -/
def reduceMax (score : String → Nat) : List String → String
  | [] => ""
  | k :: ks => ks.foldl (fun a b => if score a > score b then a else b) k

/-- `detectLanguage(text)` from the modernized server variant. -/
def detectLanguage (text : String) : String :=
  reduceMax (scoresFor text) langKeys

/-- Position of a language key in the fixed key order. -/
def orderIdx (k : String) : Nat :=
  if k = "tr" then 0 else if k = "en" then 1 else if k = "es" then 2
  else if k = "fr" then 3 else if k = "de" then 4 else if k = "ar" then 5
  else 6

/-- The resolver entry point: `const detectedLang = language ||
detectLanguage(question)` — a present, non-empty hint is returned verbatim,
otherwise the heuristic runs. -/
def resolve (text : String) (hint : Option String) : String :=
  match hint with
  | some h => if h = "" then detectLanguage text else h
  | none => detectLanguage text

/-- `detectLanguage` from `server.js` (the variant with word-membership
counts and a fixed priority order).  JS splits on `/\s+/`; empty tokens are
dropped here, which no marker word matches anyway. -/
def srvTurkishWords : List String :=
  ["bir", "bu", "ve", "için", "ile", "de", "da", "nedir", "nasıl", "neden"]

def srvSpanishWords : List String :=
  ["un", "el", "la", "es", "en", "de", "que", "y", "por", "para"]

def srvFrenchWords : List String :=
  ["le", "de", "et", "à", "un", "il", "être", "et", "en", "avoir"]

def srvGermanWords : List String :=
  ["der", "die", "das", "und", "in", "den", "von", "zu", "mit", "ist"]

def wordsAux : List Char → List Char → List String
  | [], acc => if acc = [] then [] else [String.mk acc.reverse]
  | c :: rest, acc =>
      if c.isWhitespace then
        (if acc = [] then wordsAux rest []
         else String.mk acc.reverse :: wordsAux rest [])
      else wordsAux rest (c :: acc)

/-- `text.toLowerCase().split(/\s+/)` (modulo empty tokens). -/
def wordsOf (text : String) : List String :=
  wordsAux (lowerStr text).data []

def srvCount (ws : List String) (markers : List String) : Nat :=
  (ws.filter fun w => markers.contains w).length

def serverDetectLanguage (text : String) : String :=
  let words := wordsOf text
  if srvCount words srvTurkishWords > 0 then "tr"
  else if srvCount words srvSpanishWords > 0 then "es"
  else if srvCount words srvFrenchWords > 0 then "fr"
  else if srvCount words srvGermanWords > 0 then "de"
  else "en"

/-! ## Transcript entries and the prompt builder -/

/-- One element of the `collected` array: `{ model, round, text }`. -/
structure Entry where
  model : String
  round : Nat
  text : String
deriving DecidableEq, Repr

/-- The per-round instruction appended to the base prompt (`prompt += ...`).
Rounds other than 1–3 append nothing, as in the source `if`/`else if` chain. -/
def roundInstruction (round : Nat) (isSerious : Bool) : String :=
  if round = 1 then
    if isSerious then
      "\n\n[ROUND 1 INSTRUCTION]: This appears to be a serious topic. Provide direct, helpful, and empathetic responses without playful elements."
    else
      "\n\n[ROUND 1 INSTRUCTION]: Provide a short and concise answer."
  else if round = 2 then
    if isSerious then
      "\n\n[ROUND 2 INSTRUCTION]: Reference other AIs' responses professionally. Be thorough, supportive, and provide helpful information. Provide a clear and fluent explanation without writing too long."
    else
      "\n\n[ROUND 2 INSTRUCTION]: This is the second round. Reference other AIs' responses (not your own!) with brief, playful references. IGNORE YOUR OWN PREVIOUS RESPONSE - act as if you never wrote it. Only mention other AIs. Be witty and make the reader smile! Provide a clear and fluent explanation without writing too long."
  else if round = 3 then
    if isSerious then
      "\n\n[ROUND 3 - COMPREHENSIVE ANALYSIS]: Provide a thorough, professional analysis of other AIs' responses. Focus on practical solutions and actionable advice."
    else
      "\n\n[ROUND 3 - SERIOUS ANALYSIS]: Alright, let's get serious. If you requested three rounds, you must be serious about this topic! 😏 Analyze other AIs' previous responses, start with a clever quip but then dive deep. Provide practical solutions, real data, concrete suggestions. Be both entertaining and informative - but this time deliver genuinely useful results!"
  else ""

/-- The filter inside `buildRoundPrompt`:
`allRoundResponses.filter(r => r.round < round && r.model !== currentModel)`. -/
def contextEntries (allRoundResponses : List Entry) (round : Nat)
    (currentModel : String) : List Entry :=
  allRoundResponses.filter fun e =>
    decide (e.round < round ∧ e.model ≠ currentModel)

/-- `` `- [${r.model}] ${r.text}` ``. -/
def fmtEntry (e : Entry) : String :=
  "- [" ++ e.model ++ "] " ++ e.text

/-- `buildRoundPrompt(basePrompt, round, allRoundResponses, currentModel,
isSerious)`. -/
def buildRoundPrompt (basePrompt : String) (round : Nat)
    (allRoundResponses : List Entry) (currentModel : String)
    (isSerious : Bool) : String :=
  let prompt := basePrompt ++ roundInstruction round isSerious
  if round = 1 then prompt
  else
    let prev :=
      joinSep "\n" ((contextEntries allRoundResponses round currentModel).map fmtEntry)
    prompt ++ "\n\nOther models said previously:\n" ++ prev ++
      "\n\nBriefly comment on agreements/disagreements and, if needed, refine your answer."

/-! ## Moderator prompt -/

/-- The `styleGuidance` object lookup with its `||` default. -/
def styleGuidance (style : String) : String :=
  if style = "neutral" then "Balanced and concise final answer."
  else if style = "analytical" then "Compare and contrast key points analytically."
  else if style = "educational" then "Explain clearly with simple examples if useful."
  else if style = "creative" then "Provide an engaging, creative synthesis."
  else if style = "quick-summary" then "Provide a terse executive summary."
  else "Balanced and concise final answer."

/-- `` `- [${c.model} R${c.round}] ${c.text}` ``. -/
def fmtCollected (c : Entry) : String :=
  "- [" ++ c.model ++ " R" ++ toString c.round ++ "] " ++ c.text

/-- `moderatorPrompt(style, language, collected, rounds)`.  For three or more
rounds the requested style is overridden with `'analytical'` and a
personalized intro is inserted. -/
def moderatorPrompt (style language : String) (collected : List Entry)
    (rounds : Int) : String :=
  let actualStyle := if rounds ≥ 3 then "analytical" else style
  let guidance := styleGuidance actualStyle
  let lines := joinSep "\n" (collected.map fmtCollected)
  let personalizedIntro :=
    if rounds ≥ 3 then
      if language = "Turkish" ∨ language = "Türkçe" then
        "Üç tur seçtiğine göre bu konuya epey ciddi yaklaşıyorsun, peki o zaman..."
      else
        "Since you chose three rounds, you're quite serious about this topic, well then..."
    else ""
  let basePrompt :=
    "Act as a moderator. " ++ guidance ++
      " Synthesize the following model responses into a single, helpful answer. CRITICAL: Respond in the SAME LANGUAGE as the user's original question."
  if personalizedIntro ≠ "" then
    basePrompt ++ "\n\n" ++ personalizedIntro ++ "\n\n" ++ lines
  else
    basePrompt ++ "\n\n" ++ lines

/-! ## The `/api/chat` orchestrator

A provider task inside one round is summarised by an `Outcome`: the
fragments it yielded before settling, whether it settled by throwing, and
`String(e?.message || e)` in that case.  A `Behavior` assigns an outcome to
every provider name and round; the moderator engine's stream is a separate
fragment list per engine name. -/

structure Outcome where
  fragments : List String
  failed : Bool
  errMsg : String
deriving DecidableEq, Repr

abbrev Behavior := String → Nat → Outcome

/-- The request body fields consumed by the handler (with their JS
defaults already substituted by the caller). -/
structure ChatRequest where
  prompt : String
  language : String
  rounds : Int
  useGPT : Bool
  useClaude : Bool
  useGemini : Bool
  moderatorEngine : String
  moderatorStyle : String
deriving DecidableEq, Repr

/-- Which SDK clients are non-null (key present at startup). -/
structure Clients where
  openai : Bool
  anthropic : Bool
  genAI : Bool
deriving DecidableEq, Repr

/-- `[useGPT && openai ? 'GPT' : null, ...].filter(Boolean)`. -/
def activeProviders (req : ChatRequest) (cl : Clients) : List String :=
  (if req.useGPT && cl.openai then ["GPT"] else []) ++
  (if req.useClaude && cl.anthropic then ["Claude"] else []) ++
  (if req.useGemini && cl.genAI then ["Gemini"] else [])

/-- Loop bound: `Math.max(1, Math.min(3, rounds))`. -/
def numRounds (rounds : Int) : Nat :=
  (max 1 (min 3 rounds)).toNat

/-- The rounds the loop executes, in order: `1, 2, …, numRounds`. -/
def roundsRange (n : Nat) : List Nat :=
  (List.range n).map (· + 1)

/-- A task's accumulated buffer: the concatenation of the fragments it
yielded (also for tasks that later throw). -/
def buffer (behavior : Behavior) (p : String) (r : Nat) : String :=
  (behavior p r).fragments.foldl (· ++ ·) ""

/-- The entries round `r` pushes into `collected` at the barrier: one entry
per provider with a non-empty buffer, in task order. -/
def roundEntries (active : List String) (behavior : Behavior) (r : Nat) :
    List Entry :=
  (active.filter fun p => buffer behavior p r ≠ "").map fun p =>
    ⟨p, r, buffer behavior p r⟩

/-- The `collected` array after the barrier of round `n` (rounds `1..n`
appended in order). -/
def transcriptUpTo (active : List String) (behavior : Behavior) :
    Nat → List Entry
  | 0 => []
  | n + 1 => transcriptUpTo active behavior n ++ roundEntries active behavior (n + 1)

/-- The SSE events of the handler.  `startedAt` (wall clock) is omitted from
`meta`; `message` and `moderatorMessage` carry the `text: ''` finalize
payload the code sends. -/
inductive Event where
  | meta (rounds : Int) (moderatorEngine moderatorStyle : String)
  | round (r : Nat) (message : String)
  | chunk (model : String) (r : Nat) (text : String)
  | providerError (model : String) (r : Nat) (message : String)
  | message (model : String) (r : Nat) (text : String)
  | moderatorChunk (text : String)
  | moderatorMessage (text : String)
  | error (message : String)
  | done
deriving DecidableEq, Repr

/-- The events of one round, with the chunk phases of the concurrent tasks
serialised in task order (membership-level properties are unaffected by the
real interleaving). -/
def roundEvents (active : List String) (behavior : Behavior) (r : Nat) :
    List Event :=
  [Event.round r (if r = 1 then "Round 1 starting…"
                  else "Round " ++ toString r ++ " starting…")] ++
  (active.flatMap fun p =>
    ((behavior p r).fragments.map fun c => Event.chunk p r c) ++
    (if (behavior p r).failed then
      [Event.providerError p r (behavior p r).errMsg]
     else [])) ++
  ((active.filter fun p => buffer behavior p r ≠ "").map fun p =>
    Event.message p r "")

/-- The `moderatorRun` engine selection: the requested engine if its client
exists, otherwise OpenAI if available, otherwise nothing. -/
def moderatorPick (req : ChatRequest) (cl : Clients) : Option String :=
  if req.moderatorEngine = "GPT" ∧ cl.openai then some "GPT"
  else if req.moderatorEngine = "Claude" ∧ cl.anthropic then some "Claude"
  else if req.moderatorEngine = "Gemini" ∧ cl.genAI then some "Gemini"
  else if cl.openai then some "GPT"
  else none

/-- The moderation-phase events: one `moderator_chunk` per fragment and a
final `moderator_message` iff the accumulated buffer is non-empty.  When no
engine is picked, `moderatorRun` yields nothing and no event is sent. -/
def moderatorEvents (req : ChatRequest) (cl : Clients)
    (modBehavior : String → List String) : List Event :=
  match moderatorPick req cl with
  | none => []
  | some engine =>
      let frs := modBehavior engine
      (frs.map Event.moderatorChunk) ++
      (if frs.foldl (· ++ ·) "" ≠ "" then [Event.moderatorMessage ""] else [])

/-- The handler's response: an early HTTP 400 JSON error, or an SSE stream. -/
inductive ChatResponse where
  | badRequest (error : String)
  | sse (events : List Event)
deriving DecidableEq, Repr

def sseEvents : ChatResponse → List Event
  | ChatResponse.badRequest _ => []
  | ChatResponse.sse es => es

/-- The transcript available to the moderator: `collected` after the last
round. -/
def finalTranscript (req : ChatRequest) (cl : Clients)
    (behavior : Behavior) : List Entry :=
  transcriptUpTo (activeProviders req cl) behavior (numRounds req.rounds)

/-- The per-round, per-provider prompt actually handed to a provider's
stream call in round `r` (built from `collected` as of the end of round
`r - 1`). -/
def promptFor (req : ChatRequest) (cl : Clients) (behavior : Behavior)
    (p : String) (r : Nat) : String :=
  buildRoundPrompt req.prompt r
    (transcriptUpTo (activeProviders req cl) behavior (r - 1)) p
    (detectSeriousTopic req.prompt)

/-- The whole `/api/chat` handler. -/
def runChat (req : ChatRequest) (cl : Clients) (behavior : Behavior)
    (modBehavior : String → List String) : ChatResponse :=
  if req.prompt = "" then ChatResponse.badRequest "Missing prompt"
  else
    let active := activeProviders req cl
    if active = [] then
      ChatResponse.sse
        [Event.meta req.rounds req.moderatorEngine req.moderatorStyle,
         Event.error "No providers available or enabled.",
         Event.done]
    else
      ChatResponse.sse
        ([Event.meta req.rounds req.moderatorEngine req.moderatorStyle] ++
         (roundsRange (numRounds req.rounds)).flatMap
           (roundEvents active behavior) ++
         moderatorEvents req cl modBehavior ++
         [Event.done])

/-! ## Claim C7: topic classifier -/

/-- C7: `classify(text)` is pure, deterministic and case-insensitive: it is
true exactly when the lowercased text contains some keyword of the fixed
multilingual list as a substring, and it is invariant under lowercasing the
input. -/
theorem C7_classifier (t : String) :
    (detectSeriousTopic t = true ↔
      ∃ k ∈ seriousKeywords, strIncludes (lowerStr t) k = true) ∧
    detectSeriousTopic t = detectSeriousTopic (lowerStr t) := by
  constructor
  · simp [detectSeriousTopic, List.any_eq_true]
  · unfold detectSeriousTopic
    rw [lowerStr_idem]

/-! ## Claim C9: the prompt builder is a pure function -/

/-- C9: two invocations of the round-prompt builder on componentwise equal
inputs return identical strings (no hidden state). -/
theorem C9_prompt_deterministic
    (b₁ b₂ : String) (r₁ r₂ : Nat) (t₁ t₂ : List Entry)
    (m₁ m₂ : String) (s₁ s₂ : Bool)
    (hb : b₁ = b₂) (hr : r₁ = r₂) (ht : t₁ = t₂) (hm : m₁ = m₂)
    (hs : s₁ = s₂) :
    buildRoundPrompt b₁ r₁ t₁ m₁ s₁ = buildRoundPrompt b₂ r₂ t₂ m₂ s₂ := by
  subst hb hr ht hm hs
  rfl

theorem C9_prompt_deterministic_witness :
    buildRoundPrompt "What is AI?" 2 [⟨"Claude", 1, "answer"⟩] "GPT" false =
      buildRoundPrompt "What is AI?" 2 [⟨"Claude", 1, "answer"⟩] "GPT" false :=
  C9_prompt_deterministic _ _ _ _ _ _ _ _ _ _ rfl rfl rfl rfl rfl

/-! ## Claim C3: language resolver (corrected) -/

/-- C3 counterexample: on text where every marker list scores zero the
heuristic returns `"ar"` (Arabic), not English; and the `server.js` variant
returns Turkish on a text whose Spanish score is strictly higher. -/
theorem C3_resolver_cx :
    resolve "zzz" none = "ar" ∧ ("ar" : String) ≠ "en" ∧
    serverDetectLanguage "bu el la es" = "tr" ∧
    srvCount (wordsOf "bu el la es") srvSpanishWords >
      srvCount (wordsOf "bu el la es") srvTurkishWords := by
  decide

/-- C3 amended: a non-empty hint is returned verbatim; without a hint the
text is scored by substring occurrences of the fixed marker lists (raw text
for the Arabic list) and the *last* key in the order tr, en, es, fr, de, ar
attaining the maximal score is returned — so ties and the all-zero case fall
to the later language (e.g. Arabic), not to English. -/
theorem C3_resolver_amended :
    (∀ t h, h ≠ "" → resolve t (some h) = h) ∧
    (∀ t, resolve t none = detectLanguage t) ∧
    (∀ t, detectLanguage t ∈ langKeys ∧
      (∀ k ∈ langKeys, scoresFor t k ≤ scoresFor t (detectLanguage t)) ∧
      (∀ k ∈ langKeys, orderIdx (detectLanguage t) < orderIdx k →
        scoresFor t k < scoresFor t (detectLanguage t))) := by
  refine ⟨?_, ?_, ?_⟩
  · intro t h hh
    simp [resolve, hh]
  · intro t
    rfl
  · intro t
    unfold detectLanguage reduceMax langKeys
    simp only [List.foldl]
    split_ifs <;>
      refine ⟨by decide, ?_, ?_⟩ <;>
        intro k hk <;> fin_cases hk <;>
          first
            | omega
            | (intro hor; simp [orderIdx] at hor; omega)
            | (intro hor; simp [orderIdx] at hor)

theorem C3_resolver_amended_witness :
    resolve "What is AI?" (some "Türkçe") = "Türkçe" :=
  C3_resolver_amended.1 "What is AI?" "Türkçe" (by decide)

/-! ## Orchestrator lemmas -/

theorem mem_roundsRange {r n : Nat} :
    r ∈ roundsRange n ↔ 1 ≤ r ∧ r ≤ n := by
  unfold roundsRange
  simp only [List.mem_map, List.mem_range]
  constructor
  · rintro ⟨a, ha, rfl⟩
    omega
  · rintro ⟨h1, h2⟩
    exact ⟨r - 1, by omega, by omega⟩

theorem roundEntries_mem {active : List String} {behavior : Behavior}
    {r : Nat} {e : Entry} :
    e ∈ roundEntries active behavior r ↔
      e.model ∈ active ∧ e.round = r ∧
        e.text = buffer behavior e.model r ∧ e.text ≠ "" := by
  unfold roundEntries
  simp only [List.mem_map, List.mem_filter, decide_not]
  constructor
  · rintro ⟨p, ⟨hp, hb⟩, rfl⟩
    simp_all
  · rintro ⟨hm, hr, ht, hne⟩
    refine ⟨e.model, ⟨hm, ?_⟩, ?_⟩
    · subst hr
      rw [← ht]
      simpa using hne
    · subst hr
      rw [← ht]

theorem transcriptUpTo_mem {active : List String} {behavior : Behavior}
    {n : Nat} {e : Entry} :
    e ∈ transcriptUpTo active behavior n ↔
      e.model ∈ active ∧ 1 ≤ e.round ∧ e.round ≤ n ∧
        e.text = buffer behavior e.model e.round ∧ e.text ≠ "" := by
  induction n with
  | zero =>
      simp [transcriptUpTo]
      omega
  | succ n ih =>
      unfold transcriptUpTo
      rw [List.mem_append, ih, roundEntries_mem]
      constructor
      · rintro (⟨h1, h2, h3, h4, h5⟩ | ⟨h1, h2, h3, h4⟩)
        · exact ⟨h1, h2, Nat.le_succ_of_le h3, h4, h5⟩
        · refine ⟨h1, by omega, by omega, ?_, h4⟩
          rw [h2]
          exact h3
      · rintro ⟨h1, h2, h3, h4, h5⟩
        rcases Nat.lt_or_ge e.round (n + 1) with hlt | hge
        · exact Or.inl ⟨h1, h2, by omega, h4, h5⟩
        · exact Or.inr ⟨h1, by omega, by rw [← (by omega : e.round = n + 1)]; exact h4, h5⟩

theorem message_mem_roundEvents {active : List String} {behavior : Behavior}
    {p : String} {r r' : Nat} :
    Event.message p r "" ∈ roundEvents active behavior r' ↔
      r' = r ∧ p ∈ active ∧ buffer behavior p r ≠ "" := by
  unfold roundEvents
  constructor
  · intro hmem
    rcases List.mem_append.mp hmem with hL | hmsg
    · rcases List.mem_append.mp hL with hhd | hfm
      · simp at hhd
      · rcases List.mem_flatMap.mp hfm with ⟨q, hq, hin⟩
        rcases List.mem_append.mp hin with hc | he
        · rcases List.mem_map.mp hc with ⟨c, _, hc'⟩
          cases hc'
        · revert he
          split <;> intro he <;> simp_all
    · rcases List.mem_map.mp hmsg with ⟨q, hq', heq⟩
      have hq := List.mem_filter.mp hq'
      injection heq with h1 h2 h3
      subst h1 h2
      exact ⟨rfl, hq.1, by simpa using hq.2⟩
  · rintro ⟨rfl, hp, hb⟩
    exact List.mem_append.mpr
      (Or.inr (List.mem_map.mpr
        ⟨p, List.mem_filter.mpr ⟨hp, by simpa using hb⟩, rfl⟩))

theorem providerError_mem_roundEvents {active : List String}
    {behavior : Behavior} {p : String} {r : Nat}
    (hp : p ∈ active) (hf : (behavior p r).failed = true) :
    Event.providerError p r (behavior p r).errMsg ∈
      roundEvents active behavior r := by
  unfold roundEvents
  refine List.mem_append.mpr (Or.inl (List.mem_append.mpr (Or.inr ?_)))
  refine List.mem_flatMap.mpr ⟨p, hp, List.mem_append.mpr (Or.inr ?_)⟩
  simp [hf]

theorem providerError_not_mem_moderatorEvents {req : ChatRequest}
    {cl : Clients} {modBehavior : String → List String} {p : String}
    {r : Nat} {m : String} :
    Event.providerError p r m ∉ moderatorEvents req cl modBehavior := by
  unfold moderatorEvents
  cases h : moderatorPick req cl with
  | none => simp
  | some engine =>
      simp only [List.mem_append, List.mem_map]
      rintro (⟨c, _, hc⟩ | hmem)
      · cases hc
      · revert hmem
        split <;> intro hmem <;> simp_all

theorem runChat_eq {req : ChatRequest} {cl : Clients} {behavior : Behavior}
    {modBehavior : String → List String}
    (h1 : req.prompt ≠ "") (h2 : activeProviders req cl ≠ []) :
    runChat req cl behavior modBehavior = ChatResponse.sse
      ([Event.meta req.rounds req.moderatorEngine req.moderatorStyle] ++
       (roundsRange (numRounds req.rounds)).flatMap
         (roundEvents (activeProviders req cl) behavior) ++
       moderatorEvents req cl modBehavior ++ [Event.done]) := by
  simp [runChat, h1, h2]

/-- Every event of a round is a `round`, `chunk`, `provider_error` or
`message` event of that round. -/
theorem roundEvents_shape {active : List String} {behavior : Behavior}
    {r : Nat} :
    ∀ e ∈ roundEvents active behavior r,
      (∃ m, e = Event.round r m) ∨ (∃ p t, e = Event.chunk p r t) ∨
      (∃ p m, e = Event.providerError p r m) ∨
      (∃ p, e = Event.message p r "") := by
  intro e he
  unfold roundEvents at he
  rcases List.mem_append.mp he with hL | hmsg
  · rcases List.mem_append.mp hL with hhd | hfm
    · rcases List.mem_singleton.mp hhd with rfl
      exact Or.inl ⟨_, rfl⟩
    · rcases List.mem_flatMap.mp hfm with ⟨q, hq, hin⟩
      rcases List.mem_append.mp hin with hc | herr
      · rcases List.mem_map.mp hc with ⟨c, _, rfl⟩
        exact Or.inr (Or.inl ⟨q, c, rfl⟩)
      · revert herr
        split <;> intro herr
        · rcases List.mem_singleton.mp herr with rfl
          exact Or.inr (Or.inr (Or.inl ⟨q, _, rfl⟩))
        · cases herr
  · rcases List.mem_map.mp hmsg with ⟨q, _, rfl⟩
    exact Or.inr (Or.inr (Or.inr ⟨q, rfl⟩))

/-- Moderation-phase events are only `moderator_chunk` / `moderator_message`. -/
theorem moderatorEvents_shape {req : ChatRequest} {cl : Clients}
    {modBehavior : String → List String} :
    ∀ e ∈ moderatorEvents req cl modBehavior,
      (∃ t, e = Event.moderatorChunk t) ∨ e = Event.moderatorMessage "" := by
  intro e he
  unfold moderatorEvents at he
  revert he
  cases moderatorPick req cl with
  | none => intro he; cases he
  | some engine =>
      intro he
      rcases List.mem_append.mp he with hc | hm
      · rcases List.mem_map.mp hc with ⟨t, _, rfl⟩
        exact Or.inl ⟨t, rfl⟩
      · revert hm
        split <;> intro hm <;> simp_all

theorem message_not_mem_moderatorEvents {req : ChatRequest} {cl : Clients}
    {modBehavior : String → List String} {p : String} {r : Nat} {t : String} :
    Event.message p r t ∉ moderatorEvents req cl modBehavior := by
  intro hmem
  rcases moderatorEvents_shape _ hmem with ⟨u, hu⟩ | hu <;> cases hu

/-- Bool test for `round` events, used to count executed rounds. -/
def isRoundEvent : Event → Bool
  | Event.round _ _ => true
  | _ => false

theorem countP_roundEvents (active : List String) (behavior : Behavior)
    (r : Nat) :
    (roundEvents active behavior r).countP isRoundEvent = 1 := by
  unfold roundEvents
  rw [List.countP_append, List.countP_append]
  have hA : ([Event.round r (if r = 1 then "Round 1 starting…"
      else "Round " ++ toString r ++ " starting…")]).countP isRoundEvent = 1 := by
    simp [List.countP_cons, isRoundEvent]
  have hB : (active.flatMap fun p =>
      ((behavior p r).fragments.map fun c => Event.chunk p r c) ++
      (if (behavior p r).failed then
        [Event.providerError p r (behavior p r).errMsg] else [])).countP
        isRoundEvent = 0 := by
    refine List.countP_eq_zero.mpr ?_
    intro e he
    rcases List.mem_flatMap.mp he with ⟨q, _, hin⟩
    rcases List.mem_append.mp hin with hc | herr
    · rcases List.mem_map.mp hc with ⟨c, _, rfl⟩
      simp [isRoundEvent]
    · revert herr
      split <;> intro herr <;> simp_all [isRoundEvent]
  have hC : (((active.filter fun p => buffer behavior p r ≠ "")).map fun p =>
      Event.message p r "").countP isRoundEvent = 0 := by
    refine List.countP_eq_zero.mpr ?_
    intro e he
    rcases List.mem_map.mp he with ⟨q, _, rfl⟩
    simp [isRoundEvent]
  rw [hA, hB, hC]

theorem countP_flatMap_roundEvents (active : List String)
    (behavior : Behavior) (l : List Nat) :
    (l.flatMap (roundEvents active behavior)).countP isRoundEvent =
      l.length := by
  induction l with
  | nil => rfl
  | cons a t ih =>
      rw [List.flatMap_cons, List.countP_append, countP_roundEvents, ih]
      simp [Nat.add_comm]

theorem countP_moderatorEvents (req : ChatRequest) (cl : Clients)
    (modBehavior : String → List String) :
    (moderatorEvents req cl modBehavior).countP isRoundEvent = 0 := by
  refine List.countP_eq_zero.mpr ?_
  intro e he
  rcases moderatorEvents_shape _ he with ⟨t, rfl⟩ | rfl <;> simp [isRoundEvent]

/-! ## Claim C4: round count is clamped to [1,3] -/

/-- C4: the number of `round` events actually emitted equals the requested
round count clamped to `[1,3]`. -/
theorem C4_round_clamp (req : ChatRequest) (cl : Clients)
    (behavior : Behavior) (modBehavior : String → List String)
    (h1 : req.prompt ≠ "") (h2 : activeProviders req cl ≠ []) :
    (req.rounds < 1 →
      (sseEvents (runChat req cl behavior modBehavior)).countP isRoundEvent
        = 1) ∧
    (3 < req.rounds →
      (sseEvents (runChat req cl behavior modBehavior)).countP isRoundEvent
        = 3) ∧
    (1 ≤ req.rounds → req.rounds ≤ 3 →
      ((sseEvents (runChat req cl behavior modBehavior)).countP isRoundEvent
        : Int) = req.rounds) := by
  have hcnt : (sseEvents (runChat req cl behavior modBehavior)).countP
      isRoundEvent = numRounds req.rounds := by
    rw [runChat_eq h1 h2]
    simp only [sseEvents]
    rw [List.countP_append, List.countP_append, List.countP_append,
      countP_flatMap_roundEvents, countP_moderatorEvents]
    simp [isRoundEvent, roundsRange]
  rw [hcnt]
  unfold numRounds
  refine ⟨fun h => ?_, fun h => ?_, fun ha hb => ?_⟩ <;> omega

theorem C4_round_clamp_witness :
    (sseEvents (runChat
      ⟨"What is AI?", "English", 7, true, true, true, "Moderator", "neutral"⟩
      ⟨true, true, true⟩ (fun _ _ => ⟨["ok"], false, ""⟩)
      (fun _ => ["m"]))).countP isRoundEvent = 3 :=
  (C4_round_clamp _ _ _ _ (by decide) (by decide)).2.1 (by decide)

/-! ## Claim C6: empty provider set / empty prompt (corrected) -/

/-- C6 counterexample: with no available provider the handler still emits a
`meta` event before the terminal error, so the stream is not limited to the
single terminal error the claim describes. -/
theorem C6_failfast_cx :
    runChat ⟨"What is AI?", "English", 1, true, true, true, "Moderator",
        "neutral"⟩
      ⟨false, false, false⟩ (fun _ _ => ⟨[], false, ""⟩) (fun _ => []) =
      ChatResponse.sse
        [Event.meta 1 "Moderator" "neutral",
         Event.error "No providers available or enabled.",
         Event.done] ∧
    Event.meta 1 "Moderator" "neutral" ∈
      sseEvents (runChat ⟨"What is AI?", "English", 1, true, true, true,
        "Moderator", "neutral"⟩
        ⟨false, false, false⟩ (fun _ _ => ⟨[], false, ""⟩) (fun _ => [])) := by
  decide

/-- C6 amended: an empty prompt is rejected with an HTTP 400 JSON error and
no event stream; an empty enabled-provider set yields the stream
`meta`, `error`, `done` — exactly one terminal error, no `round` event, but
preceded by a `meta` event rather than by nothing. -/
theorem C6_failfast_amended (req : ChatRequest) (cl : Clients)
    (behavior : Behavior) (modBehavior : String → List String) :
    (req.prompt = "" →
      runChat req cl behavior modBehavior =
        ChatResponse.badRequest "Missing prompt") ∧
    (req.prompt ≠ "" → activeProviders req cl = [] →
      runChat req cl behavior modBehavior = ChatResponse.sse
        [Event.meta req.rounds req.moderatorEngine req.moderatorStyle,
         Event.error "No providers available or enabled.",
         Event.done] ∧
      (∀ r m, Event.round r m ∉
        sseEvents (runChat req cl behavior modBehavior)) ∧
      (sseEvents (runChat req cl behavior modBehavior)).countP
        (fun e => match e with | Event.error _ => true | _ => false) = 1) := by
  constructor
  · intro h
    simp [runChat, h]
  · intro h1 h2
    have heq : runChat req cl behavior modBehavior = ChatResponse.sse
        [Event.meta req.rounds req.moderatorEngine req.moderatorStyle,
         Event.error "No providers available or enabled.",
         Event.done] := by
      simp [runChat, h1, h2]
    refine ⟨heq, ?_, ?_⟩
    · intro r m
      rw [heq]
      intro hmem
      simp [sseEvents] at hmem
    · rw [heq]
      rfl

theorem C6_failfast_amended_witness :
    runChat ⟨"", "English", 1, true, true, true, "Moderator", "neutral"⟩
      ⟨true, true, true⟩ (fun _ _ => ⟨[], false, ""⟩) (fun _ => []) =
      ChatResponse.badRequest "Missing prompt" :=
  (C6_failfast_amended _ _ _ _).1 rfl

/-! ## Barrier lemmas shared by the failure-handling claims -/

theorem transcript_entry_iff {req : ChatRequest} {cl : Clients}
    {behavior : Behavior} {p : String} {r : Nat}
    (hp : p ∈ activeProviders req cl) (hr1 : 1 ≤ r)
    (hr2 : r ≤ numRounds req.rounds) :
    (⟨p, r, buffer behavior p r⟩ : Entry) ∈ finalTranscript req cl behavior ↔
      buffer behavior p r ≠ "" := by
  unfold finalTranscript
  rw [transcriptUpTo_mem]
  constructor
  · rintro ⟨-, -, -, -, h⟩
    exact h
  · intro hb
    exact ⟨hp, hr1, hr2, rfl, hb⟩

theorem transcript_entry_text {req : ChatRequest} {cl : Clients}
    {behavior : Behavior} :
    ∀ e ∈ finalTranscript req cl behavior,
      e.text = buffer behavior e.model e.round ∧ e.text ≠ "" ∧
      e.model ∈ activeProviders req cl ∧ 1 ≤ e.round ∧
      e.round ≤ numRounds req.rounds := by
  intro e he
  unfold finalTranscript at he
  rw [transcriptUpTo_mem] at he
  tauto

theorem message_event_iff {req : ChatRequest} {cl : Clients}
    {behavior : Behavior} {modBehavior : String → List String}
    {p : String} {r : Nat}
    (h1 : req.prompt ≠ "") (hp : p ∈ activeProviders req cl)
    (hr1 : 1 ≤ r) (hr2 : r ≤ numRounds req.rounds) :
    Event.message p r "" ∈ sseEvents (runChat req cl behavior modBehavior) ↔
      buffer behavior p r ≠ "" := by
  have h2 := List.ne_nil_of_mem hp
  rw [runChat_eq h1 h2]
  simp only [sseEvents, List.mem_append]
  constructor
  · rintro (((hm | hf) | hmod) | hdone)
    · cases List.mem_singleton.mp hm
    · rcases List.mem_flatMap.mp hf with ⟨r', _, hre⟩
      rcases message_mem_roundEvents.mp hre with ⟨rfl, -, hb⟩
      exact hb
    · exact absurd hmod message_not_mem_moderatorEvents
    · cases List.mem_singleton.mp hdone
  · intro hb
    refine Or.inl (Or.inl (Or.inr (List.mem_flatMap.mpr
      ⟨r, mem_roundsRange.mpr ⟨hr1, hr2⟩,
        message_mem_roundEvents.mpr ⟨rfl, hp, hb⟩⟩)))

theorem providerError_event {req : ChatRequest} {cl : Clients}
    {behavior : Behavior} {modBehavior : String → List String}
    {p : String} {r : Nat}
    (h1 : req.prompt ≠ "") (hp : p ∈ activeProviders req cl)
    (hr1 : 1 ≤ r) (hr2 : r ≤ numRounds req.rounds)
    (hf : (behavior p r).failed = true) :
    Event.providerError p r (behavior p r).errMsg ∈
      sseEvents (runChat req cl behavior modBehavior) := by
  have h2 := List.ne_nil_of_mem hp
  rw [runChat_eq h1 h2]
  simp only [sseEvents, List.mem_append]
  refine Or.inl (Or.inl (Or.inr (List.mem_flatMap.mpr
    ⟨r, mem_roundsRange.mpr ⟨hr1, hr2⟩,
      providerError_mem_roundEvents hp hf⟩)))

/-! ## Claim C2: failed provider and the transcript (corrected) -/

/-- C2 counterexample: GPT fails in round 1 without yielding fragments; a
`provider_error` event is sent, but the transcript receives **no** entry for
GPT at all — in particular no provider-labeled error entry. -/
theorem C2_failed_entry_cx :
    (∀ e ∈ finalTranscript
        ⟨"What is AI?", "English", 1, true, true, true, "Moderator",
          "neutral"⟩
        ⟨true, true, false⟩
        (fun p _ => if p = "GPT" then ⟨[], true, "boom"⟩
                    else ⟨["ok"], false, ""⟩),
      e.model ≠ "GPT") ∧
    Event.providerError "GPT" 1 "boom" ∈
      sseEvents (runChat
        ⟨"What is AI?", "English", 1, true, true, true, "Moderator",
          "neutral"⟩
        ⟨true, true, false⟩
        (fun p _ => if p = "GPT" then ⟨[], true, "boom"⟩
                    else ⟨["ok"], false, ""⟩)
        (fun _ => [])) ∧
    "GPT" ∈ activeProviders
      ⟨"What is AI?", "English", 1, true, true, true, "Moderator", "neutral"⟩
      ⟨true, true, false⟩ := by
  decide

/-- C2 amended: a provider failing in round `r` still yields a
`provider_error` event, but it contributes a TranscriptEntry only when its
fragment buffer is non-empty — and then the entry holds the partial text,
not an error message; any provider's `message` event for round `r` exists
exactly when its buffer is non-empty. -/
theorem C2_failed_entry_amended (req : ChatRequest) (cl : Clients)
    (behavior : Behavior) (modBehavior : String → List String)
    (p : String) (r : Nat)
    (h1 : req.prompt ≠ "") (hp : p ∈ activeProviders req cl)
    (hr1 : 1 ≤ r) (hr2 : r ≤ numRounds req.rounds) :
    ((behavior p r).failed = true →
      Event.providerError p r (behavior p r).errMsg ∈
        sseEvents (runChat req cl behavior modBehavior)) ∧
    ((⟨p, r, buffer behavior p r⟩ : Entry) ∈ finalTranscript req cl behavior
      ↔ buffer behavior p r ≠ "") ∧
    (∀ e ∈ finalTranscript req cl behavior, e.model = p → e.round = r →
      e.text = buffer behavior p r) ∧
    (Event.message p r "" ∈ sseEvents (runChat req cl behavior modBehavior)
      ↔ buffer behavior p r ≠ "") := by
  refine ⟨fun hf => providerError_event h1 hp hr1 hr2 hf,
    transcript_entry_iff hp hr1 hr2, ?_,
    message_event_iff h1 hp hr1 hr2⟩
  intro e he hm hr
  have ht := (transcript_entry_text e he).1
  rw [hm, hr] at ht
  exact ht

theorem C2_failed_entry_amended_witness :
    Event.providerError "GPT" 1 "boom" ∈
      sseEvents (runChat
        ⟨"What is AI?", "English", 1, true, true, true, "Moderator",
          "neutral"⟩
        ⟨true, true, false⟩
        (fun p _ => if p = "GPT" then ⟨[], true, "boom"⟩
                    else ⟨["ok"], false, ""⟩)
        (fun _ => [])) :=
  (C2_failed_entry_amended _ _ _ _ "GPT" 1 (by decide) (by decide)
    (by decide) (by decide)).1 (by decide)

/-! ## Claim C10: entry/message exactly when the buffer is non-empty -/

/-- C10: a provider's transcript entry and `message` event for round `r`
exist iff its fragment buffer is non-empty at the barrier; a provider that
fails after yielding fragments gets both a `provider_error` and a `message`
event (with its partial text in the transcript), and a provider that
settles empty contributes neither an entry nor a `message` event. -/
theorem C10_buffer_barrier (req : ChatRequest) (cl : Clients)
    (behavior : Behavior) (modBehavior : String → List String)
    (p : String) (r : Nat)
    (h1 : req.prompt ≠ "") (hp : p ∈ activeProviders req cl)
    (hr1 : 1 ≤ r) (hr2 : r ≤ numRounds req.rounds) :
    ((⟨p, r, buffer behavior p r⟩ : Entry) ∈ finalTranscript req cl behavior
      ↔ buffer behavior p r ≠ "") ∧
    (Event.message p r "" ∈ sseEvents (runChat req cl behavior modBehavior)
      ↔ buffer behavior p r ≠ "") ∧
    ((behavior p r).failed = true → buffer behavior p r ≠ "" →
      Event.providerError p r (behavior p r).errMsg ∈
        sseEvents (runChat req cl behavior modBehavior) ∧
      Event.message p r "" ∈
        sseEvents (runChat req cl behavior modBehavior)) ∧
    (buffer behavior p r = "" →
      (∀ e ∈ finalTranscript req cl behavior,
        ¬(e.model = p ∧ e.round = r)) ∧
      Event.message p r "" ∉
        sseEvents (runChat req cl behavior modBehavior)) := by
  refine ⟨transcript_entry_iff hp hr1 hr2,
    message_event_iff h1 hp hr1 hr2, ?_, ?_⟩
  · intro hf hb
    exact ⟨providerError_event h1 hp hr1 hr2 hf,
      (message_event_iff h1 hp hr1 hr2).mpr hb⟩
  · intro hb
    constructor
    · rintro e he ⟨hm, hr⟩
      have ht := transcript_entry_text e he
      rw [hm, hr] at ht
      exact ht.2.1 (by rw [ht.1, hb])
    · intro hmem
      exact ((message_event_iff h1 hp hr1 hr2).mp hmem) hb

theorem C10_buffer_barrier_witness :
    Event.message "Claude" 1 "" ∈
      sseEvents (runChat
        ⟨"What is AI?", "English", 1, true, true, true, "Moderator",
          "neutral"⟩
        ⟨true, true, false⟩
        (fun p _ => if p = "GPT" then ⟨[], true, "boom"⟩
                    else ⟨["ok"], false, ""⟩)
        (fun _ => [])) :=
  ((C10_buffer_barrier _ _ _ _ "Claude" 1 (by decide) (by decide)
    (by decide) (by decide)).2.1).mpr (by decide)

/-! ## Claim C5: moderator engine fallback (corrected) -/

/-- C5 counterexample: the requested engine (Gemini) is unavailable while
the Anthropic adapter is available and would stream `"MOD"`; yet the stream
carries no moderator output and no error event — the handler only ever
falls back to OpenAI, and silently skips moderation otherwise. -/
theorem C5_moderator_fallback_cx :
    runChat
      ⟨"What is AI?", "English", 1, false, true, false, "Gemini", "neutral"⟩
      ⟨false, true, false⟩ (fun _ _ => ⟨["ok"], false, ""⟩)
      (fun _ => ["MOD"]) =
      ChatResponse.sse
        [Event.meta 1 "Gemini" "neutral",
         Event.round 1 "Round 1 starting…",
         Event.chunk "Claude" 1 "ok",
         Event.message "Claude" 1 "",
         Event.done] ∧
    moderatorPick
      ⟨"What is AI?", "English", 1, false, true, false, "Gemini", "neutral"⟩
      ⟨false, true, false⟩ = none ∧
    (⟨false, true, false⟩ : Clients).anthropic = true := by
  decide

/-- C5 amended: when the requested engine's client is missing, the handler
falls back to OpenAI only; `moderatorPick` is `none` exactly when OpenAI is
unavailable and the requested engine is not an available Claude/Gemini, and
in that case the moderation phase is silently skipped — no moderator events
and no error event — while every debate round and the final `done` are
still delivered. -/
theorem C5_moderator_fallback_amended (req : ChatRequest) (cl : Clients)
    (behavior : Behavior) (modBehavior : String → List String)
    (h1 : req.prompt ≠ "") (h2 : activeProviders req cl ≠ []) :
    (moderatorPick req cl = none ↔
      cl.openai = false ∧
      ¬(req.moderatorEngine = "Claude" ∧ cl.anthropic = true) ∧
      ¬(req.moderatorEngine = "Gemini" ∧ cl.genAI = true)) ∧
    (moderatorPick req cl = none →
      (∀ t, Event.moderatorChunk t ∉
        sseEvents (runChat req cl behavior modBehavior)) ∧
      (∀ t, Event.moderatorMessage t ∉
        sseEvents (runChat req cl behavior modBehavior)) ∧
      (∀ m, Event.error m ∉
        sseEvents (runChat req cl behavior modBehavior)) ∧
      Event.done ∈ sseEvents (runChat req cl behavior modBehavior) ∧
      (∀ r, 1 ≤ r → r ≤ numRounds req.rounds →
        ∃ m, Event.round r m ∈
          sseEvents (runChat req cl behavior modBehavior))) := by
  constructor
  · unfold moderatorPick
    split_ifs with hg hc hgem ho <;>
      simp_all
  · intro hnone
    have hmod : moderatorEvents req cl modBehavior = [] := by
      unfold moderatorEvents
      rw [hnone]
    rw [runChat_eq h1 h2, hmod]
    simp only [sseEvents, List.append_nil, List.mem_append,
      List.mem_singleton]
    refine ⟨?_, ?_, ?_, Or.inr trivial, ?_⟩
    · intro t hmem
      rcases hmem with (hm | hf) | hd
      · cases hm
      · rcases List.mem_flatMap.mp hf with ⟨r', _, hre⟩
        rcases roundEvents_shape _ hre with ⟨m, h⟩ | ⟨p, t', h⟩ | ⟨p, m, h⟩
          | ⟨p, h⟩ <;> cases h
      · cases hd
    · intro t hmem
      rcases hmem with (hm | hf) | hd
      · cases hm
      · rcases List.mem_flatMap.mp hf with ⟨r', _, hre⟩
        rcases roundEvents_shape _ hre with ⟨m, h⟩ | ⟨p, t', h⟩ | ⟨p, m, h⟩
          | ⟨p, h⟩ <;> cases h
      · cases hd
    · intro m hmem
      rcases hmem with (hm | hf) | hd
      · cases hm
      · rcases List.mem_flatMap.mp hf with ⟨r', _, hre⟩
        rcases roundEvents_shape _ hre with ⟨m', h⟩ | ⟨p, t', h⟩
          | ⟨p, m', h⟩ | ⟨p, h⟩ <;> cases h
      · cases hd
    · intro r hra hrb
      refine ⟨if r = 1 then "Round 1 starting…"
        else "Round " ++ toString r ++ " starting…",
        Or.inl (Or.inr (List.mem_flatMap.mpr
          ⟨r, mem_roundsRange.mpr ⟨hra, hrb⟩, ?_⟩))⟩
      unfold roundEvents
      exact List.mem_append.mpr (Or.inl (List.mem_append.mpr
        (Or.inl (List.mem_singleton.mpr rfl))))

theorem C5_moderator_fallback_amended_witness :
    moderatorPick
      ⟨"What is AI?", "English", 1, false, true, false, "Gemini", "neutral"⟩
      ⟨false, true, false⟩ = none :=
  (C5_moderator_fallback_amended _ _
    (fun _ _ => Outcome.mk ["ok"] false "") (fun _ => ["MOD"])
    (by decide) (by decide)).1.mpr (by decide)

/-! ## Claim C8: moderator style guidance (corrected) -/

set_option maxRecDepth 100000 in
/-- C8 counterexample: with three rounds and requested style
`quick-summary`, the synthesis prompt does not contain the quick-summary
guidance sentence; it contains the analytical one instead (the style is
overridden for `rounds >= 3`). -/
theorem C8_style_cx :
    strIncludes (moderatorPrompt "quick-summary" "English" [] 3)
      "Provide a terse executive summary." = false ∧
    strIncludes (moderatorPrompt "quick-summary" "English" [] 3)
      "Compare and contrast key points analytically." = true ∧
    styleGuidance "quick-summary" = "Provide a terse executive summary." := by
  decide

set_option maxRecDepth 100000 in
/-- C8 amended: the synthesis prompt contains the guidance sentence mapped
from the requested style only for requests with fewer than three rounds;
for three or more rounds the requested style is overridden and the prompt
contains the analytical guidance sentence instead. -/
theorem C8_style_amended (style language : String) (collected : List Entry)
    (rounds : Int)
    (hstyle : style ∈ ["neutral", "analytical", "educational", "creative",
      "quick-summary"]) :
    (rounds < 3 →
      strIncludes (moderatorPrompt style language collected rounds)
        (styleGuidance style) = true) ∧
    (3 ≤ rounds →
      strIncludes (moderatorPrompt style language collected rounds)
        "Compare and contrast key points analytically." = true) := by
  constructor
  · intro hlt
    have h3 : ¬(rounds ≥ 3) := by omega
    apply strIncludes_of_decomp _ _ ("Act as a moderator. ".data)
      ((" Synthesize the following model responses into a single, helpful answer. CRITICAL: Respond in the SAME LANGUAGE as the user's original question.").data ++
       ("\n\n").data ++ (joinSep "\n" (collected.map fmtCollected)).data)
    simp [moderatorPrompt, h3, String.data_append, List.append_assoc]
  · intro hge
    by_cases hl : language = "Turkish" ∨ language = "Türkçe"
    · apply strIncludes_of_decomp _ _ ("Act as a moderator. ".data)
        ((" Synthesize the following model responses into a single, helpful answer. CRITICAL: Respond in the SAME LANGUAGE as the user's original question.").data ++
         ("\n\n").data ++
         ("Üç tur seçtiğine göre bu konuya epey ciddi yaklaşıyorsun, peki o zaman...").data ++
         ("\n\n").data ++ (joinSep "\n" (collected.map fmtCollected)).data)
      simp [moderatorPrompt, hge, hl, styleGuidance, String.data_append,
        List.append_assoc]
    · apply strIncludes_of_decomp _ _ ("Act as a moderator. ".data)
        ((" Synthesize the following model responses into a single, helpful answer. CRITICAL: Respond in the SAME LANGUAGE as the user's original question.").data ++
         ("\n\n").data ++
         ("Since you chose three rounds, you're quite serious about this topic, well then...").data ++
         ("\n\n").data ++ (joinSep "\n" (collected.map fmtCollected)).data)
      simp [moderatorPrompt, hge, hl, styleGuidance, String.data_append,
        List.append_assoc]

theorem C8_style_amended_witness :
    strIncludes (moderatorPrompt "quick-summary" "English" [] 1)
      (styleGuidance "quick-summary") = true :=
  (C8_style_amended "quick-summary" "English" [] 1 (by decide)).1 (by decide)

/-! ## Claim C1: prior-round context block -/

/-- The text of every entry selected into the context block occurs verbatim
in the built prompt. -/
theorem prompt_contains_entry (b : String) (r : Nat) (es : List Entry)
    (m : String) (s : Bool) (hr : r ≠ 1) (e : Entry)
    (he : e ∈ contextEntries es r m) :
    strIncludes (buildRoundPrompt b r es m s) e.text = true := by
  have hline : fmtEntry e ∈ (contextEntries es r m).map fmtEntry :=
    List.mem_map_of_mem _ he
  rcases joinSep_decomp "\n" _ _ hline with ⟨A, B, hAB⟩
  simp only [fmtEntry, String.data_append, List.append_assoc] at hAB
  apply strIncludes_of_decomp _ _
    ((b ++ roundInstruction r s ++ "\n\nOther models said previously:\n").data
      ++ A ++ ("- [".data ++ e.model.data ++ "] ".data))
    (B ++ ("\n\nBriefly comment on agreements/disagreements and, if needed, refine your answer.").data)
  simp [buildRoundPrompt, hr, String.data_append, List.append_assoc, hAB]

/-- C1: for every round `r > 1`, the context block a provider receives is
exactly the prior transcript filtered to entries of other providers: it
never contains the provider's own entries nor entries of round `≥ r`, the
round-`< r` condition is vacuous over the accumulated transcript, and the
round-`(r-1)` text of every other active provider that produced text is
selected and occurs verbatim in the built prompt. -/
theorem C1_round_context (req : ChatRequest) (cl : Clients)
    (behavior : Behavior) (p : String) (r : Nat)
    (hp : p ∈ activeProviders req cl) (hr : 2 ≤ r) :
    (∀ e ∈ contextEntries
        (transcriptUpTo (activeProviders req cl) behavior (r - 1)) r p,
      e.model ≠ p ∧ e.round < r) ∧
    (contextEntries
        (transcriptUpTo (activeProviders req cl) behavior (r - 1)) r p =
      (transcriptUpTo (activeProviders req cl) behavior (r - 1)).filter
        (fun e => decide (e.model ≠ p))) ∧
    (∀ q ∈ activeProviders req cl, q ≠ p → buffer behavior q (r - 1) ≠ "" →
      (⟨q, r - 1, buffer behavior q (r - 1)⟩ : Entry) ∈ contextEntries
        (transcriptUpTo (activeProviders req cl) behavior (r - 1)) r p ∧
      strIncludes (promptFor req cl behavior p r)
        (buffer behavior q (r - 1)) = true) := by
  have hne1 : r ≠ 1 := by omega
  refine ⟨?_, ?_, ?_⟩
  · intro e he
    have hf := List.mem_filter.mp he
    have hcond := of_decide_eq_true hf.2
    exact ⟨hcond.2, hcond.1⟩
  · unfold contextEntries
    apply List.filter_congr
    intro e he
    rw [transcriptUpTo_mem] at he
    obtain ⟨-, hround1, hround2, -, -⟩ := he
    have hlt : e.round < r := by omega
    simp [hlt]
  · intro q hq hqp hb
    have hmem : (⟨q, r - 1, buffer behavior q (r - 1)⟩ : Entry) ∈
        transcriptUpTo (activeProviders req cl) behavior (r - 1) := by
      rw [transcriptUpTo_mem]
      have h1 : (1 : Nat) ≤ r - 1 := by omega
      exact ⟨hq, h1, Nat.le_refl _, rfl, hb⟩
    have hctx : (⟨q, r - 1, buffer behavior q (r - 1)⟩ : Entry) ∈
        contextEntries
          (transcriptUpTo (activeProviders req cl) behavior (r - 1)) r p := by
      unfold contextEntries
      refine List.mem_filter.mpr ⟨hmem, ?_⟩
      simp only [decide_eq_true_eq]
      have h2 : r - 1 < r := by omega
      exact ⟨h2, hqp⟩
    exact ⟨hctx,
      prompt_contains_entry req.prompt r _ p (detectSeriousTopic req.prompt)
        hne1 _ hctx⟩

theorem C1_round_context_witness :
    (⟨"Claude", 2 - 1,
      buffer (fun p _ => if p = "GPT" then (⟨["g1"], false, ""⟩ : Outcome)
        else ⟨["c1"], false, ""⟩) "Claude" (2 - 1)⟩ : Entry) ∈
      contextEntries
        (transcriptUpTo
          (activeProviders
            ⟨"What is AI?", "English", 2, true, true, false, "Moderator",
              "neutral"⟩ ⟨true, true, false⟩)
          (fun p _ => if p = "GPT" then (⟨["g1"], false, ""⟩ : Outcome)
            else ⟨["c1"], false, ""⟩) (2 - 1)) 2 "GPT" ∧
    strIncludes
      (promptFor
        ⟨"What is AI?", "English", 2, true, true, false, "Moderator",
          "neutral"⟩ ⟨true, true, false⟩
        (fun p _ => if p = "GPT" then (⟨["g1"], false, ""⟩ : Outcome)
          else ⟨["c1"], false, ""⟩) "GPT" 2)
      (buffer (fun p _ => if p = "GPT" then (⟨["g1"], false, ""⟩ : Outcome)
        else ⟨["c1"], false, ""⟩) "Claude" (2 - 1)) = true :=
  (C1_round_context _ _ _ "GPT" 2 (by decide) (by decide)).2.2
    "Claude" (by decide) (by decide) (by decide)

end Agora
